import Mathlib

/-!
# Verification of `oauth2ms.py` (sbfnk/oauth2ms)

A shallow embedding of `src/oauth2ms/oauth2ms.py` together with theorems
settling the specification claims about it.

Modelling conventions:

* Python functions become Lean functions; external collaborators (the `msal`
  SDK, `gnupg`, `json`, `urllib.parse.parse_qs`, the XDG directory helpers,
  the local HTTP listener's incoming traffic) are oracles passed in as
  explicit parameters or carried in an `Env` record.
* A Python run's observable behaviour is captured by `RunResult`: the lines
  printed to standard output, the contents written to the credential file,
  whether the credential file was opened for reading, and the final outcome
  (clean exit with a code, an unhandled exception, or blocking forever on
  the listener).
* Python name resolution matters in this source file: `APP_NAME`,
  `SUCCESS_MESSAGE` and `cmdline_args` are assigned only as local variables
  of `main` (source lines 209-235), yet the module-level functions
  `load_config` and `build_new_app_state` read them as globals.  Such reads
  raise `NameError` at call time.  The module-level values of these names
  are modelled as `Option` values that are `none` for this program.
* Similarly, reading a function-local name before any assignment to it on
  the executed path raises `UnboundLocalError`; this is modelled by the
  `PyError.unboundLocal` outcome (`cache` at line 266, `gpg_args` at
  line 241).
-/

/-- Exceptions that the embedded code can raise. -/
inductive PyError
  | indexError
  | typeError
  | keyError (key : String)
  /-- `NameError`: a module-level (global) name lookup failed. -/
  | nameErr (n : String)
  /-- `UnboundLocalError`: a function-local name was read before assignment. -/
  | unboundLocal (n : String)
  | unicodeEncodeError
deriving DecidableEq

/-- A JSON value, as far as this program inspects one. -/
inductive JVal
  | null
  | str (s : String)
  | num (n : Int)
  | bool (b : Bool)
  | arr (xs : List String)
deriving DecidableEq

/-- A parsed JSON object (`json.loads` / `json.load` result): an ordered
association list with unique keys, as Python dicts preserve insertion
order. -/
abbrev JDict := List (String × JVal)

/-- First-match association-list lookup (Python `d[k]` / `k in d` on a
dict with unique keys). -/
def alookup {α : Type} : List (String × α) → String → Option α
  | [], _ => none
  | (k, v) :: rest, key => if k = key then some v else alookup rest key

/-- Python `d.get(k)`: `None` when the key is absent *or* its value is JSON
`null` (both are `None` to the caller). -/
def pyDictGet (d : JDict) (k : String) : Option JVal :=
  match alookup d k with
  | some .null => none
  | some v => some v
  | none => none

/-- Python `d[k] = v` on a dict: overwrite in place, or append a new key. -/
def pySetKey : JDict → String → JVal → JDict
  | [], key, v => [(key, v)]
  | (k, w) :: rest, key, v =>
      if k = key then (key, v) :: rest else (k, w) :: pySetKey rest key v

/-- Truthiness of an `argparse` string option: `None` and `""` are falsy. -/
def pyTruthy : Option String → Bool
  | none => false
  | some s => s ≠ ""

/-- Python `"{}".format(x)` for an optional string (`None` prints as
`"None"`), used for the `$XDG_CONFIG_HOME` diagnostic line. -/
def pyFormatOpt : Option String → String
  | none => "None"
  | some s => s

/-- An msal account object, as far as this program inspects one
(`accounts[0]["username"]`). -/
structure Account where
  username : String
deriving DecidableEq

/-- The `crypt` dictionary built in `main` (lines 242-245).  The `gpg`
handle itself is opaque; its behaviour is the `decrypt`/`encrypt` oracle
of the environment. -/
structure Crypt where
  fingerprint : String
deriving DecidableEq

/-- The four command-line arguments (source lines 218-235). -/
structure Args where
  encode_xoauth2 : Bool
  encrypt_using_fingerprint : Option String
  gpg_home : Option String
  no_browser : Bool
deriving DecidableEq

/-! ## Base64 (the `base64.b64encode` oracle, standard RFC 4648 alphabet) -/

/-- The standard base64 alphabet. -/
def b64Alphabet : List Char :=
  "ABCDEFGHIJKLMNOPQRSTUVWXYZabcdefghijklmnopqrstuvwxyz0123456789+/".data

/-- The base64 digit for a 6-bit value. -/
def b64CharAt (n : Nat) : Char := b64Alphabet.getD n 'A'

/-- Base64-encode a byte sequence, three bytes at a time, with `=` padding. -/
def b64encode : List Nat → List Char
  | [] => []
  | [a] => [b64CharAt (a / 4), b64CharAt (a % 4 * 16), '=', '=']
  | [a, b] => [b64CharAt (a / 4), b64CharAt (a % 4 * 16 + b / 16),
               b64CharAt (b % 16 * 4), '=']
  | a :: b :: c :: rest =>
      b64CharAt (a / 4) :: b64CharAt (a % 4 * 16 + b / 16) ::
      b64CharAt (b % 16 * 4 + c / 64) :: b64CharAt (c % 64) :: b64encode rest

/-- `base64.b64encode(bs).decode("utf-8")`: the encoded text as a string. -/
def b64String (bs : List Nat) : String := String.mk (b64encode bs)

/-- The bytes of a string under the ASCII codec (only meaningful when every
character is ASCII). -/
def asciiBytes (s : String) : List Nat := s.data.map Char.toNat

/-- Whether every character of a string is ASCII (code point < 128). -/
def allAscii (s : String) : Bool := s.data.all fun c => decide (c.toNat < 128)

/-- Python `s.encode("ascii")`: the byte string, or `UnicodeEncodeError` when
a character is outside ASCII. -/
def pyEncodeAscii (s : String) : Except PyError (List Nat) :=
  if allAscii s then .ok (asciiBytes s) else .error .unicodeEncodeError

/-! ## `encode_xoauth2` (source lines 196-206) -/

/-- `encode_xoauth2(app, token)`: take the first cached account's username
(`accounts[0]["username"]`, `IndexError` on an empty account list), build
`b"user=" + username + b"\x01" + b"auth=Bearer " + token + b"\x01\x01"`
with the textual parts ASCII-encoded, and base64 the result. -/
def encode_xoauth2 (accounts : List Account) (token : String) :
    Except PyError String :=
  match accounts with
  | [] => .error .indexError
  | acct :: _ =>
    let username := acct.username
    match pyEncodeAscii ("user=" ++ username),
          pyEncodeAscii ("auth=Bearer " ++ token) with
    | .ok user, .ok btoken =>
        .ok (b64String (user ++ [1] ++ btoken ++ [1] ++ [1]))
    | .error e, _ => .error e
    | _, .error e => .error e

/-! ## `fetch_token_from_cache` (source lines 152-161) -/

/-- `fetch_token_from_cache(app)`.  The source guards with
`if cca.get_accounts:` — the *bound method object*, not its call result —
which is always truthy, so the guard is the constant `true` and the
`else: None` branch is dead.  Inside the branch, `accounts[0]` raises
`IndexError` on an empty account list; `acquire_token_silent` returns
either `None` (then `result["access_token"]` raises `TypeError`) or a dict
(then a missing `"access_token"` key raises `KeyError`). -/
def fetch_token_from_cache (accounts : List Account)
    (silent : Account → Option (List (String × String))) :
    Except PyError (Option String) :=
  if true then
    match accounts with
    | [] => .error .indexError
    | acct :: _ =>
      match silent acct with
      | none => .error .typeError
      | some result =>
        match alookup result "access_token" with
        | none => .error (.keyError "access_token")
        | some t => .ok (some t)
  else
    .ok none

/-! ## `validate_config` (source lines 77-88) -/

/-- `validate_config(config)`: all seven required keys are present
(`k in config` counts a key even when its value is JSON `null`). -/
def validate_config (config : JDict) : Bool :=
  (alookup config "tenant_id").isSome &&
  (alookup config "client_id").isSome &&
  (alookup config "redirect_host").isSome &&
  (alookup config "redirect_port").isSome &&
  (alookup config "redirect_path").isSome &&
  (alookup config "scopes").isSome &&
  (alookup config "client_secret").isSome

/-! ## Redirect-path normalization (source lines 105-110) -/

/-- Source lines 106-108:
`if redirect_path != "/" and redirect_path[-1] == "/": redirect_path = redirect_path[:-1]`.
On the empty string the first conjunct holds and `redirect_path[-1]`
raises `IndexError`, modelled as `none`. -/
def normalizeRedirectPath (p : String) : Option String :=
  if p = "/" then some p
  else
    match p.data.getLast? with
    | none => none
    | some c => if c = '/' then some (String.mk p.data.dropLast) else some p

/-- Source line 110: the derived redirect URI
`"http://" + redirect_host + ":" + redirect_port + redirect_path`
after normalization (`none` when normalization raises). -/
def buildRedirectUri (host port p : String) : Option String :=
  (normalizeRedirectPath p).map fun path => "http://" ++ host ++ ":" ++ port ++ path

/-- Modelled from the spec's words (for comparison with the code): strip one
trailing `/` unless the path is exactly `/`. -/
def specNormalizeRedirectPath (p : String) : String :=
  if p ≠ "/" ∧ p.data.getLast? = some '/' then String.mk p.data.dropLast else p

/-- Modelled from the spec's words: the redirect URI the spec describes,
`http://` + host + `:` + port + normalized path. -/
def specRedirectUri (host port p : String) : String :=
  "http://" ++ host ++ ":" ++ port ++ specNormalizeRedirectPath p

/-! ## `main`'s gpg/crypt setup (source lines 237-245) -/

/-- Source lines 237-245.  `gpg_args` is assigned only under
`if cmdline_args.gpg_home:`, yet `gnupg.GPG(**gpg_args)` reads it whenever
`cmdline_args.encrypt_using_fingerprint` is truthy — reading it raises
`UnboundLocalError` when the gpg-home flag was not given.  (An `argparse`
string option is truthy exactly when it is a non-empty string.) -/
def cryptSetup (args : Args) : Except PyError (Option Crypt) :=
  if pyTruthy args.encrypt_using_fingerprint then
    if pyTruthy args.gpg_home then
      .ok (some ⟨args.encrypt_using_fingerprint.getD ""⟩)
    else
      .error (.unboundLocal "gpg_args")
  else
    .ok none

/-! ## `build_app_state_from_credentials` (source lines 163-190) -/

/-- The text handed to `json.loads`: the raw file contents, first passed
through `str(gpg.decrypt(...))` when a crypt handle is configured
(source lines 168-171). -/
def credText (crypt : Option Crypt) (decrypt : String → String)
    (content : String) : String :=
  match crypt with
  | some _ => decrypt content
  | none => content

/-- Result of `build_app_state_from_credentials`. -/
inductive LoadResult
  /-- `sys.exit(1)` after printing the malformed-JSON diagnostic. -/
  | fatal (stdout : List String)
  /-- Returned `None`: missing file, or no usable `token_cache` key. -/
  | noState
  /-- Returned an app state whose `config` is the parsed credential dict. -/
  | loaded (config : JDict)
deriving DecidableEq

/-- `build_app_state_from_credentials(crypt, credentials_file)`:
missing file → `None`; optional decryption; unparsable JSON → print a
diagnostic and `sys.exit(1)`; `config.get("token_cache") is None` → `None`;
otherwise deserialize the cache and return the app state. -/
def build_app_state_from_credentials (crypt : Option Crypt)
    (fileExists : Bool) (content : String) (decrypt : String → String)
    (parse : String → Option JDict) : LoadResult :=
  if !fileExists then .noState
  else
    let credentials := credText crypt decrypt content
    match parse credentials with
    | none =>
        .fatal ["Not a valild json file or it is ecrypted. Maybe add/remove the -e arugment?"]
    | some config =>
      match pyDictGet config "token_cache" with
      | none => .noState
      | some _tc => .loaded config

/-! ## Module-level globals

`APP_NAME`, `SUCCESS_MESSAGE` and `cmdline_args` are assigned only inside
`main` (source lines 215, 216 and 235), so at module scope — where
`load_config` (line 38) and `build_new_app_state` (lines 112, 117) resolve
them — they are unbound. -/

/-- The module-level binding of `APP_NAME`: absent (it is a local of `main`). -/
def global_APP_NAME : Option String := none

/-- The module-level binding of `SUCCESS_MESSAGE`: absent (a local of `main`). -/
def global_SUCCESS_MESSAGE : Option String := none

/-- The module-level binding of `cmdline_args`: absent (a local of `main`). -/
def global_cmdline_args : Option Args := none

/-! ## `load_config` (source lines 37-43) -/

/-- `load_config()`: evaluating `APP_NAME` raises `NameError` when the
global is unbound; otherwise a missing config file prints two diagnostic
lines and returns `None`, and an existing one is parsed by `json.load`
(oracle `configFile`). -/
def load_config (gAPP_NAME : Option String) (xdg : Option String)
    (configFile : Option JDict) :
    List String × Except PyError (Option JDict) :=
  match gAPP_NAME with
  | none => ([], .error (.nameErr "APP_NAME"))
  | some appName =>
    match configFile with
    | none =>
        (["Couldn't find configuration file. Config file must be at: $XDG_CONFIG_HOME/"
            ++ appName ++ "/config.json",
          "Current value of $XDG_CONFIG_HOME is " ++ pyFormatOpt xdg],
         .ok none)
    | some cfg => ([], .ok (some cfg))

/-! ## `build_new_app_state` (source lines 90-150) -/

/-- The authorization-code extraction of source lines 126-132:
`parse_qs` is applied to the *full* captured request URI, so the code value
sits under the key `redirect_uri + "?code"`; the code is yielded exactly
when that key is present.  (`parse_qs` maps each key to a list of values;
the oracle returns each key's value list collapsed to its first element,
which is all this program inspects.) -/
def extractAuthCode (parseQs : String → List (String × String))
    (redirect_uri : String) (auth_response : String) : Option String :=
  let parsed_auth_response := parseQs auth_response
  let code_key := redirect_uri ++ "?code"
  alookup parsed_auth_response code_key

/-- Outcome of `build_new_app_state`. -/
inductive BuildOutcome
  | raised (e : PyError)
  /-- `http_server.handle_request()` blocks forever: no request ever arrives. -/
  | blocked
  /-- The function returned `None`. -/
  | returnedNone
  /-- The function returned `(app, token)`; `config` is the app's config dict
  (with `redirect_uri` added). -/
  | success (config : JDict) (token : String)
deriving DecidableEq

/-- Result of `build_new_app_state`: printed lines plus outcome. -/
structure BuildResult where
  stdout : List String
  outcome : BuildOutcome
deriving DecidableEq

/-- The token-exchange tail of `build_new_app_state` (source lines 128-150),
entered after `http_server.handle_request()` captured one request: with the
extracted code (`none` when `code_key not in parsed_auth_response`), either
return `None` at once, or run the exchange; a result without
`"access_token"` prints two diagnostic lines and returns `None`, otherwise
the function returns `(app, token)`. -/
def afterCapture (exchangeToken : Option String) (exchangeRepr : String)
    (out : List String) (config : JDict) (codeOpt : Option String) :
    BuildResult :=
  match codeOpt with
  | none => ⟨out, .returnedNone⟩
  | some _auth_code =>
    match exchangeToken with
    | none =>
        ⟨out ++ ["Something went wrong during authorization",
                 "Server returned: " ++ exchangeRepr],
         .returnedNone⟩
    | some token => ⟨out, .success config token⟩

/-- `build_new_app_state(crypt)`, source lines 90-150, in source order:

1. `config = load_config()` — raises `NameError` on `APP_NAME` when that
   global is unbound; `None` → return `None` (line 93-94).
2. `validate_config` failure → print two lines, return `None` (96-101).
3. Normalize `redirect_path` and build `redirect_uri` (105-110); a non-string
   path or host/port raises `TypeError`, the empty path `IndexError`.
4. `get_auth_url` (external SDK; oracle `authUrl`), then
   `WSGIRedirectionApp(SUCCESS_MESSAGE)` (112) and
   `cmdline_args.no_browser` (117) — `NameError` when those globals are
   unbound; with `--no-browser` the authorization URL is *printed*.
5. `http_server.handle_request()` (122) handles exactly the first incoming
   request (blocking forever if none arrives), and the code is extracted
   from that single request's URI (126-132). -/
def build_new_app_state (gAPP_NAME gSUCCESS_MESSAGE : Option String)
    (gArgs : Option Args) (xdg : Option String) (configFile : Option JDict)
    (authUrl : String) (requests : List String)
    (parseQs : String → List (String × String))
    (exchangeToken : Option String) (exchangeRepr : String) : BuildResult :=
  let (out1, cfgR) := load_config gAPP_NAME xdg configFile
  match cfgR with
  | .error e => ⟨out1, .raised e⟩
  | .ok none => ⟨out1, .returnedNone⟩
  | .ok (some config) =>
    if !validate_config config then
      ⟨out1 ++ ["Invalid config",
        "Config must contain the keys: tenant_id, client_id, redirect_host, redirect_port, redirect_path, scopes, client_secret"],
       .returnedNone⟩
    else
      match alookup config "redirect_path" with
      | some (.str p) =>
        match normalizeRedirectPath p with
        | none => ⟨out1, .raised .indexError⟩
        | some redirect_path =>
          match alookup config "redirect_host", alookup config "redirect_port" with
          | some (.str host), some (.str port) =>
            let redirect_uri := "http://" ++ host ++ ":" ++ port ++ redirect_path
            let config := pySetKey config "redirect_uri" (.str redirect_uri)
            let auth_url := authUrl
            match gSUCCESS_MESSAGE with
            | none => ⟨out1, .raised (.nameErr "SUCCESS_MESSAGE")⟩
            | some _msg =>
              match gArgs with
              | none => ⟨out1, .raised (.nameErr "cmdline_args")⟩
              | some args =>
                let out2 :=
                  if args.no_browser then
                    out1 ++ ["Please navigate to this url: " ++ auth_url]
                  else out1
                match requests.head? with
                | none => ⟨out2, .blocked⟩
                | some r =>
                    afterCapture exchangeToken exchangeRepr out2 config
                      (extractAuthCode parseQs redirect_uri r)
          | _, _ => ⟨out1, .raised .typeError⟩
      | some _ => ⟨out1, .raised .typeError⟩
      | none => ⟨out1, .raised (.keyError "redirect_path")⟩

/-! ## `main` (source lines 208-275) -/

/-- Final outcome of a run of `main` (invoked as `sys.exit(main())`, so a
plain return of `None` exits with code 0). -/
inductive Outcome
  | exited (code : Nat)
  /-- An unhandled exception escaped `main` (the process dies with a
  traceback and a nonzero exit status). -/
  | raised (e : PyError)
  /-- The run blocks forever in `http_server.handle_request()`. -/
  | blocked
deriving DecidableEq

/-- Observable behaviour of one run of `main`. -/
structure RunResult where
  /-- Lines printed to standard output, in order. -/
  stdout : List String
  /-- Contents written to the credential file, in order. -/
  writes : List String
  /-- Whether the credential file was opened and read. -/
  readCred : Bool
  outcome : Outcome
deriving DecidableEq

/-- The external world of one invocation: command-line arguments, the
credential and config files, and the behaviour of the external
collaborators (gpg, `json`, `parse_qs`, the msal SDK, incoming HTTP
requests), each as an oracle. -/
structure Env where
  args : Args
  /-- Whether the credential file exists. -/
  credExists : Bool
  /-- Raw contents of the credential file. -/
  credContent : String
  /-- `str(gpg.decrypt(...))`. -/
  decrypt : String → String
  /-- `json.loads`; `none` models a parse exception. -/
  parse : String → Option JDict
  /-- `cca.get_accounts()` on the cache deserialized from the credential file. -/
  credAccounts : List Account
  /-- `cca.acquire_token_silent(...)` on that cache: `none` models `None`. -/
  credSilent : Account → Option (List (String × String))
  /-- `cache.has_state_changed` of that cache at the persistence check. -/
  credChanged : Bool
  /-- `cache.serialize()` of that cache. -/
  credSerialize : String
  /-- `json.dumps`. -/
  dumps : JDict → String
  /-- `str(gpg.encrypt(text, fingerprint))`. -/
  encrypt : String → String → String
  /-- `os.getenv("XDG_CONFIG_HOME")`. -/
  xdg : Option String
  /-- The parsed config file for `load_config`; `none` = not found. -/
  configFile : Option JDict
  /-- `get_auth_url(...)` (external SDK). -/
  authUrl : String
  /-- URIs of the requests arriving at the local listener, in order. -/
  requests : List String
  /-- `urllib.parse.parse_qs`, collapsed to each key's first value. -/
  parseQs : String → List (String × String)
  /-- `result.get("access_token")` of the authorization-code exchange. -/
  exchangeToken : Option String
  /-- `str(result)` of that exchange, for the diagnostic line. -/
  exchangeRepr : String
  /-- `cca.get_accounts()` on the fresh interactive-flow cache. -/
  newAccounts : List Account
  /-- `acquire_token_silent` on that cache. -/
  newSilent : Account → Option (List (String × String))
  /-- `has_state_changed` of that cache. -/
  newChanged : Bool
  /-- `serialize()` of that cache. -/
  newSerialize : String

/-- Source lines 266-275, reached only with the local `cache` bound (raw-token
branch): when `cache.has_state_changed`, store the serialized cache under
`"token_cache"`, dump to JSON — and only inside `if crypt:` encrypt *and
write* the file; without a crypt handle the JSON text is computed and then
discarded, the `open(...).write` call being nested inside that branch. -/
def persistPhase (crypt : Option Crypt) (out : List String) (config : JDict)
    (changed : Bool) (serialize : String) (dumps : JDict → String)
    (encrypt : String → String → String) (read : Bool) : RunResult :=
  if changed then
    let config' := pySetKey config "token_cache" (.str serialize)
    let config_json := dumps config'
    match crypt with
    | some cr => ⟨out, [encrypt config_json cr.fingerprint], read, .exited 0⟩
    | none => ⟨out, [], read, .exited 0⟩
  else ⟨out, [], read, .exited 0⟩

/-- Source lines 256-275, from `if token is None:` to the end of `main`,
given an app state (its config dict and cache oracles) and the token
carried over (`none` unless the interactive flow produced one):

* `token is None` → `fetch_token_from_cache` (its exceptions propagate);
* with a token, XOAUTH2 mode prints the encoding but never assigns the
  local `cache`, so the following `if cache.has_state_changed:` raises
  `UnboundLocalError`; raw mode prints the token, assigns `cache`, and
  reaches the persistence phase;
* with no token nothing is printed and `cache` is likewise unbound. -/
def mainTail (args : Args) (crypt : Option Crypt) (out0 : List String)
    (token0 : Option String) (config : JDict) (accounts : List Account)
    (silent : Account → Option (List (String × String))) (changed : Bool)
    (serialize : String) (dumps : JDict → String)
    (encrypt : String → String → String) (read : Bool) : RunResult :=
  let fetched : Except PyError (Option String) :=
    match token0 with
    | none => fetch_token_from_cache accounts silent
    | some t => .ok (some t)
  match fetched with
  | .error e => ⟨out0, [], read, .raised e⟩
  | .ok token =>
    match token with
    | some t =>
      if args.encode_xoauth2 then
        match encode_xoauth2 accounts t with
        | .error e => ⟨out0, [], read, .raised e⟩
        | .ok enc => ⟨out0 ++ [enc], [], read, .raised (.unboundLocal "cache")⟩
      else
        persistPhase crypt (out0 ++ [t]) config changed serialize dumps encrypt read
    | none => ⟨out0, [], read, .raised (.unboundLocal "cache")⟩

/-- `main()` (source lines 208-275):

1. build the optional crypt handle (237-245; `UnboundLocalError` on
   `gpg_args` when only the fingerprint flag is truthy);
2. `build_app_state_from_credentials` (248); a malformed file printed its
   diagnostic and exited 1;
3. when that returned `None`, `app_state, token = build_new_app_state(crypt)`
   (250) — when `build_new_app_state` returns `None`, unpacking it raises
   `TypeError`, so the `if app_state is None:` fallback (252-254) is dead;
4. otherwise continue with `mainTail` over the appropriate cache. -/
def runMain (env : Env) : RunResult :=
  match cryptSetup env.args with
  | .error e => ⟨[], [], false, .raised e⟩
  | .ok crypt =>
    match build_app_state_from_credentials crypt env.credExists env.credContent
        env.decrypt env.parse with
    | .fatal out => ⟨out, [], env.credExists, .exited 1⟩
    | .loaded config =>
        mainTail env.args crypt [] none config env.credAccounts env.credSilent
          env.credChanged env.credSerialize env.dumps env.encrypt env.credExists
    | .noState =>
      let b := build_new_app_state global_APP_NAME global_SUCCESS_MESSAGE
        global_cmdline_args env.xdg env.configFile env.authUrl env.requests
        env.parseQs env.exchangeToken env.exchangeRepr
      match b.outcome with
      | .raised e => ⟨b.stdout, [], env.credExists, .raised e⟩
      | .blocked => ⟨b.stdout, [], env.credExists, .blocked⟩
      | .returnedNone => ⟨b.stdout, [], env.credExists, .raised .typeError⟩
      | .success config token =>
          mainTail env.args crypt b.stdout (some token) config env.newAccounts
            env.newSilent env.newChanged env.newSerialize env.dumps env.encrypt
            env.credExists

/-! ## Concrete test environments

A baseline environment describing a typical silent-path run: the credential
file exists, parses, and holds a `token_cache`; the cache has one account
and the provider grants the silent refresh. -/

/-- Baseline environment: plain raw-token run over cached credentials. -/
def envBase : Env where
  args := ⟨false, none, none, false⟩
  credExists := true
  credContent := "CRED"
  decrypt := fun s => s
  parse := fun s => if s = "CRED" then some [("token_cache", .str "TC")] else none
  credAccounts := [⟨"alice@example.com"⟩]
  credSilent := fun _ => some [("access_token", "tok123")]
  credChanged := false
  credSerialize := "SER"
  dumps := fun _ => "DUMP"
  encrypt := fun s fp => "ENC(" ++ s ++ "," ++ fp ++ ")"
  xdg := none
  configFile := none
  authUrl := "AURL"
  requests := []
  parseQs := fun _ => []
  exchangeToken := none
  exchangeRepr := "XREPR"
  newAccounts := []
  newSilent := fun _ => none
  newChanged := false
  newSerialize := "NSER"

/-- The XOAUTH2 encoding of `alice@example.com` / `tok123`. -/
def aliceXoauth2 : String :=
  "dXNlcj1hbGljZUBleGFtcGxlLmNvbQFhdXRoPUJlYXJlciB0b2sxMjMBAQ=="

/-- A raw-token run whose cache reports a state change, with no encryption
backend configured. -/
def envC1 : Env := { envBase with credChanged := true }

/-- A run over cached credentials whose token cache holds zero accounts. -/
def envC2 : Env := { envBase with credAccounts := [] }

/-- A first run: no credential file, so `main` enters the interactive flow. -/
def envC3 : Env := { envBase with credExists := false }

/-- A silent-path run with `--encode-xoauth2`. -/
def envC3x : Env := { envBase with args := ⟨true, none, none, false⟩ }

/-- A silent-path run with `--encode-xoauth2` (for the C4 witness). -/
def envC4 : Env := { envBase with args := ⟨true, none, none, false⟩ }

/-- A run with `-e FINGERPRINT` but without `--gpg-home`. -/
def envC10 : Env := { envBase with args := ⟨false, some "FINGERPRINT", none, false⟩ }

/-- A seven-key config dict for exercising the interactive flow. -/
def cfg7 : JDict :=
  [("tenant_id", .str "T"), ("client_id", .str "C"),
   ("redirect_host", .str "localhost"), ("redirect_port", .str "5000"),
   ("redirect_path", .str "/getToken"), ("scopes", .arr ["scope"]),
   ("client_secret", .str "S")]

/-- The captured redirect URI used by the C5 witness. -/
def redirectReq : String := "http://localhost:5000/getToken?code=abc&state=xyz"

/-- A concrete `parse_qs` oracle for the C5 witness: parsing the full
captured URI puts the code under the key `redirect_uri ++ "?code"`. -/
def parseQs5 (s : String) : List (String × String) :=
  if s = redirectReq then
    [("http://localhost:5000/getToken?code", "abc"), ("state", "xyz")]
  else []

/-! ## Theorems -/

/-- Claim C6: for every username and access token (ASCII-encodable, as the
ASCII codec the contract prescribes requires), the XOAUTH2 encoder returns
`base64("user=" ++ username ++ 0x01 ++ "auth=Bearer " ++ token ++ 0x01 ++ 0x01)`
with the textual parts ASCII-encoded, as a pure deterministic function of
its inputs, the username being taken from the first cached account. -/
theorem encode_xoauth2_formula (u t : String) (rest : List Account)
    (hu : allAscii ("user=" ++ u) = true)
    (ht : allAscii ("auth=Bearer " ++ t) = true) :
    encode_xoauth2 (⟨u⟩ :: rest) t =
      .ok (b64String (asciiBytes ("user=" ++ u) ++ [1] ++
                      asciiBytes ("auth=Bearer " ++ t) ++ [1, 1])) := by
  simp [encode_xoauth2, pyEncodeAscii, hu, ht]

/-- Witness for C6: the spec's own test vector
(`alice@example.com` / `tok123`). -/
theorem encode_xoauth2_formula_witness :
    encode_xoauth2 [⟨"alice@example.com"⟩] "tok123" = .ok aliceXoauth2 := by
  have h := encode_xoauth2_formula "alice@example.com" "tok123" []
    (by decide) (by decide)
  rw [h]; rfl

/-- Claim C7, counterexample: for the configured `redirect_path` `""` the
code raises `IndexError` at `redirect_path[-1]` (first conjunct of line 107
holds, the subscript fails), so no redirect URI is derived at all, while
the spec's formula still produces one. -/
theorem redirect_uri_empty_path_counterexample :
    ¬ buildRedirectUri "localhost" "5000" "" =
        some (specRedirectUri "localhost" "5000" "") := by decide

/-- Claim C7 (amended): for every *nonempty* configured `redirect_path`,
the derived redirect URI equals
`"http://" ++ redirect_host ++ ":" ++ redirect_port ++ normalized path`,
where normalization strips a trailing `/` unless the path is exactly `/`;
in particular `/cb/` and `/cb` both normalize to `/cb` and `/` stays `/`. -/
theorem redirect_uri_normalization (host port p : String) (hp : p ≠ "") :
    buildRedirectUri host port p = some (specRedirectUri host port p) ∧
    normalizeRedirectPath "/cb/" = some "/cb" ∧
    normalizeRedirectPath "/cb" = some "/cb" ∧
    normalizeRedirectPath "/" = some "/" := by
  refine ⟨?_, by decide, by decide, by decide⟩
  by_cases hs : p = "/"
  · simp [buildRedirectUri, normalizeRedirectPath, specRedirectUri,
      specNormalizeRedirectPath, hs]
  · have hd : p.data ≠ [] := by
      intro h
      apply hp
      cases p
      simp_all
    obtain ⟨c, hc⟩ := Option.isSome_iff_exists.mp
      (List.getLast?_isSome.mpr hd)
    by_cases hcc : c = '/'
    · simp [buildRedirectUri, normalizeRedirectPath, specRedirectUri,
        specNormalizeRedirectPath, hs, hc, hcc]
    · simp [buildRedirectUri, normalizeRedirectPath, specRedirectUri,
        specNormalizeRedirectPath, hs, hc, hcc]

/-- Witness for C7 (amended), at the spec's own example `/cb/`. -/
theorem redirect_uri_normalization_witness :
    buildRedirectUri "localhost" "5000" "/cb/" =
      some (specRedirectUri "localhost" "5000" "/cb/") ∧
    normalizeRedirectPath "/cb/" = some "/cb" ∧
    normalizeRedirectPath "/cb" = some "/cb" ∧
    normalizeRedirectPath "/" = some "/" :=
  redirect_uri_normalization "localhost" "5000" "/cb/" (by decide)

/-- Claim C8: for every load of the credential store, the result is
"nothing" (a plain `None` return, not an error) both when the credential
file does not exist and when the file parses as JSON (after optional
decryption) but has no usable `token_cache` key; only text that fails to
parse as JSON is fatal (diagnostic plus `sys.exit(1)`). -/
theorem credential_load_first_run_not_error (crypt : Option Crypt)
    (content : String) (decrypt : String → String)
    (parse : String → Option JDict) :
    build_app_state_from_credentials crypt false content decrypt parse =
      .noState ∧
    (∀ cfg, parse (credText crypt decrypt content) = some cfg →
      pyDictGet cfg "token_cache" = none →
      build_app_state_from_credentials crypt true content decrypt parse =
        .noState) ∧
    (parse (credText crypt decrypt content) = none →
      build_app_state_from_credentials crypt true content decrypt parse =
        .fatal ["Not a valild json file or it is ecrypted. Maybe add/remove the -e arugment?"]) := by
  refine ⟨rfl, ?_, ?_⟩
  · intro cfg hparse hget
    simp [build_app_state_from_credentials, hparse, hget]
  · intro hparse
    simp [build_app_state_from_credentials, hparse]

/-- Witness for C8: a missing file, a parsed file without `token_cache`,
and an unparsable file, each at concrete inputs. -/
theorem credential_load_first_run_not_error_witness :
    build_app_state_from_credentials none false "x"
      (fun s => s) (fun s => if s = "x" then some [] else none) = .noState ∧
    build_app_state_from_credentials none true "x"
      (fun s => s) (fun s => if s = "x" then some [] else none) = .noState ∧
    build_app_state_from_credentials none true "bad"
      (fun s => s) (fun s => if s = "x" then some [] else none) =
      .fatal ["Not a valild json file or it is ecrypted. Maybe add/remove the -e arugment?"] := by
  refine ⟨(credential_load_first_run_not_error none "x" (fun s => s)
      (fun s => if s = "x" then some [] else none)).1,
    (credential_load_first_run_not_error none "x" (fun s => s)
      (fun s => if s = "x" then some [] else none)).2.1 [] (by decide) rfl,
    (credential_load_first_run_not_error none "bad" (fun s => s)
      (fun s => if s = "x" then some [] else none)).2.2 (by decide)⟩

/-- Claim C10: whenever the encryption-fingerprint flag is supplied (a
non-empty value, as `argparse` truthiness requires) and the gpg-home flag
is not, `gnupg.GPG(**gpg_args)` reads the local `gpg_args`, which is
assigned only under `if cmdline_args.gpg_home:`, so the run dies with an
unbound-name error — before the credential file is read, with nothing
printed and nothing written. -/
theorem fingerprint_without_gpg_home_unbound (env : Env)
    (hfp : pyTruthy env.args.encrypt_using_fingerprint = true)
    (hgh : pyTruthy env.args.gpg_home = false) :
    runMain env = ⟨[], [], false, .raised (.unboundLocal "gpg_args")⟩ := by
  simp [runMain, cryptSetup, hfp, hgh]

/-- Witness for C10: `-e FINGERPRINT` without `--gpg-home`. -/
theorem fingerprint_without_gpg_home_unbound_witness :
    runMain envC10 = ⟨[], [], false, .raised (.unboundLocal "gpg_args")⟩ :=
  fingerprint_without_gpg_home_unbound envC10 (by decide) (by decide)

/-- Claim C4: whenever the XOAUTH2 output mode is selected and a token is
emitted, the post-emission persistence check `if cache.has_state_changed:`
reads the local name `cache`, which is assigned only on the raw-token
print branch — so the run prints the encoded token and then dies with an
unbound-name error, never persisting the credential file. -/
theorem xoauth2_emission_unbound_cache (env : Env) (c : Option Crypt)
    (cfg : JDict) (t enc : String)
    (h1 : cryptSetup env.args = .ok c)
    (h2 : build_app_state_from_credentials c env.credExists env.credContent
            env.decrypt env.parse = .loaded cfg)
    (h3 : env.args.encode_xoauth2 = true)
    (h4 : fetch_token_from_cache env.credAccounts env.credSilent =
            .ok (some t))
    (h5 : encode_xoauth2 env.credAccounts t = .ok enc) :
    runMain env =
      ⟨[enc], [], env.credExists, .raised (.unboundLocal "cache")⟩ := by
  simp [runMain, h1, h2, mainTail, h3, h4, h5]

/-- Witness for C4: a concrete `--encode-xoauth2` run over cached
credentials. -/
theorem xoauth2_emission_unbound_cache_witness :
    runMain envC4 =
      ⟨[aliceXoauth2], [], true, .raised (.unboundLocal "cache")⟩ :=
  xoauth2_emission_unbound_cache envC4 none [("token_cache", .str "TC")]
    "tok123" aliceXoauth2 rfl rfl rfl rfl (by rfl)

/-- Claim C5: once the interactive flow reaches the capture step (globals
present, config valid, its path/host/port strings in place), the result is
determined by the single captured first request alone — any later requests
are never waited for — and an authorization code is yielded exactly when
the parsed request holds a `code` parameter under the exact key
`redirect_uri ++ "?code"`; when that key is absent the flow attempt
returns `None` at once. -/
theorem capture_single_request_code_extraction
    (gA gS : String) (args : Args) (xdg : Option String) (cfg : JDict)
    (p npath host port authUrl : String)
    (pq : String → List (String × String)) (xt : Option String) (xr : String)
    (r : String) (rest rest' : List String)
    (hval : validate_config cfg = true)
    (hp : alookup cfg "redirect_path" = some (.str p))
    (hn : normalizeRedirectPath p = some npath)
    (hh : alookup cfg "redirect_host" = some (.str host))
    (hpt : alookup cfg "redirect_port" = some (.str port)) :
    build_new_app_state (some gA) (some gS) (some args) xdg (some cfg)
        authUrl (r :: rest) pq xt xr =
      build_new_app_state (some gA) (some gS) (some args) xdg (some cfg)
        authUrl (r :: rest') pq xt xr ∧
    build_new_app_state (some gA) (some gS) (some args) xdg (some cfg)
        authUrl (r :: rest) pq xt xr =
      afterCapture xt xr
        (if args.no_browser
          then ["Please navigate to this url: " ++ authUrl] else [])
        (pySetKey cfg "redirect_uri"
          (.str ("http://" ++ host ++ ":" ++ port ++ npath)))
        (extractAuthCode pq ("http://" ++ host ++ ":" ++ port ++ npath) r) ∧
    (extractAuthCode pq ("http://" ++ host ++ ":" ++ port ++ npath) r =
        none →
      (build_new_app_state (some gA) (some gS) (some args) xdg (some cfg)
          authUrl (r :: rest) pq xt xr).outcome = .returnedNone) := by
  refine ⟨?_, ?_, ?_⟩
  · simp [build_new_app_state, load_config, hval, hp, hn, hh, hpt]
  · simp [build_new_app_state, load_config, hval, hp, hn, hh, hpt]
  · intro hx
    simp [build_new_app_state, load_config, hval, hp, hn, hh, hpt, hx,
      afterCapture]

/-- Witness for C5: a concrete captured redirect carrying
`code=abc`; a queued second request does not change the result, and the
code is found under the exact derived key. -/
theorem capture_single_request_code_extraction_witness :
    build_new_app_state (some "oauth2ms") (some "Authorization complete.")
        (some ⟨false, none, none, false⟩) none (some cfg7) "AURL"
        (redirectReq :: ["later"]) parseQs5 (some "TOK") "REPR" =
      build_new_app_state (some "oauth2ms") (some "Authorization complete.")
        (some ⟨false, none, none, false⟩) none (some cfg7) "AURL"
        [redirectReq] parseQs5 (some "TOK") "REPR" ∧
    extractAuthCode parseQs5 "http://localhost:5000/getToken" redirectReq =
      some "abc" := by
  have h := capture_single_request_code_extraction "oauth2ms"
    "Authorization complete." ⟨false, none, none, false⟩ none cfg7
    "/getToken" "/getToken" "localhost" "5000" "AURL" parseQs5 (some "TOK")
    "REPR" redirectReq ["later"] [] (by decide) (by decide) (by decide)
    (by decide) (by decide)
  exact ⟨h.1, by decide⟩

/-- Claim C1 fails on the code: in a successful raw-token run whose cache
reports a state change and with *no* encryption backend configured, the
credential file is never written — the `open(credentials_file, "w")` call
(line 275) is nested inside the `if crypt:` branch, so the plaintext JSON
text is computed and discarded.  (The run still exits 0.) -/
theorem plaintext_credentials_never_written :
    runMain envC1 = ⟨["tok123"], [], true, .exited 0⟩ ∧
    envC1.credChanged = true ∧
    cryptSetup envC1.args = .ok none := by
  exact ⟨by decide, rfl, rfl⟩

/-- Claim C2 fails on the code: the silent-refresh helper raises instead of
returning nothing — with zero cached accounts `accounts[0]` raises
`IndexError` (the guard `if cca.get_accounts:` tests the bound method,
which is always truthy), and when the provider denies the refresh
(`acquire_token_silent` returns `None`), `result["access_token"]` raises
`TypeError`; the orchestrator crashes rather than falling through to the
interactive flow. -/
theorem silent_refresh_zero_accounts_raises :
    fetch_token_from_cache [] envC2.credSilent = .error .indexError ∧
    fetch_token_from_cache [⟨"alice@example.com"⟩] (fun _ => none) =
      .error .typeError ∧
    runMain envC2 = ⟨[], [], true, .raised .indexError⟩ := by
  exact ⟨rfl, rfl, by decide⟩

/-- Claim C3 fails on the code: a run that must authorize interactively (no
credential file) dies at once with an unhandled `NameError` — `load_config`
reads the global `APP_NAME`, which is assigned only inside `main` — so no
diagnostic is printed and no clean nonzero exit happens; and a run that
*does* emit a token (XOAUTH2 mode) still terminates with an unhandled
exception rather than exit code 0. -/
theorem authorizing_failure_unhandled_exception :
    runMain envC3 = ⟨[], [], false, .raised (.nameErr "APP_NAME")⟩ ∧
    (runMain envC3x).stdout = [aliceXoauth2] ∧
    (runMain envC3x).outcome = .raised (.unboundLocal "cache") := by
  exact ⟨by decide, by decide, by decide⟩

/-- Helper: the persistence phase never prints and always exits 0. -/
theorem persistPhase_stdout_outcome (crypt : Option Crypt)
    (out : List String) (config : JDict) (changed : Bool) (serialize : String)
    (dumps : JDict → String) (encrypt : String → String → String)
    (read : Bool) :
    (persistPhase crypt out config changed serialize dumps encrypt
        read).stdout = out ∧
    (persistPhase crypt out config changed serialize dumps encrypt
        read).outcome = .exited 0 := by
  cases changed <;> cases crypt <;> simp [persistPhase]

/-- Helper: with the global `APP_NAME` unbound, `build_new_app_state` dies
at its `load_config()` call with `NameError`, printing nothing. -/
theorem build_new_app_state_no_globals (gS : Option String)
    (gArgs : Option Args) (xdg : Option String) (cf : Option JDict)
    (au : String) (rq : List String)
    (pq : String → List (String × String)) (xt : Option String)
    (xr : String) :
    build_new_app_state none gS gArgs xdg cf au rq pq xt xr =
      ⟨[], .raised (.nameErr "APP_NAME")⟩ := rfl

/-- Claim C9: every invocation that terminates successfully (exit code 0)
has standard output consisting of exactly one line — the access token
obtained by the silent refresh — with no diagnostic, authorization URL, or
error text on that stream. -/
theorem successful_run_single_token_line (env : Env)
    (h : (runMain env).outcome = .exited 0) :
    ∃ t, (runMain env).stdout = [t] ∧
      fetch_token_from_cache env.credAccounts env.credSilent =
        .ok (some t) := by
  cases hc : cryptSetup env.args with
  | error e => simp [runMain, hc] at h
  | ok c =>
    cases hl : build_app_state_from_credentials c env.credExists
        env.credContent env.decrypt env.parse with
    | fatal out => simp [runMain, hc, hl] at h
    | noState =>
      simp [runMain, hc, hl, global_APP_NAME, global_SUCCESS_MESSAGE,
        global_cmdline_args, build_new_app_state_no_globals] at h
    | loaded cfg =>
      cases hf : fetch_token_from_cache env.credAccounts env.credSilent with
      | error e => simp [runMain, hc, hl, mainTail, hf] at h
      | ok ot =>
        cases ot with
        | none => simp [runMain, hc, hl, mainTail, hf] at h
        | some t =>
          by_cases he : env.args.encode_xoauth2
          · cases henc : encode_xoauth2 env.credAccounts t with
            | error e => simp [runMain, hc, hl, mainTail, hf, he, henc] at h
            | ok enc => simp [runMain, hc, hl, mainTail, hf, he, henc] at h
          · refine ⟨t, ?_, rfl⟩
            cases hcb : env.credChanged <;> cases c <;>
              simp [runMain, hc, hl, mainTail, hf, he, persistPhase, hcb]

/-- Witness for C9: the baseline silent-path run exits 0 and prints exactly
its token. -/
theorem successful_run_single_token_line_witness :
    (runMain envBase).outcome = .exited 0 ∧
    ∃ t, (runMain envBase).stdout = [t] ∧
      fetch_token_from_cache envBase.credAccounts envBase.credSilent =
        .ok (some t) :=
  ⟨by decide, successful_run_single_token_line envBase (by decide)⟩
